import Mathlib

/-!
Verification development for the Meds-Mate IOP forecasting repository.

The core under study is the risk-scoring function `calculateRealTimeRisk`
(`server/storage.ts`, lines 148-210) and the 24-hour IOP forecast engine.
All decimal weights appearing in the source (0.5, 2, 1.5, 1.2, 0.8, 0.6)
are exact multiples of 0.1, so the score arithmetic is embedded exactly
over ℤ in units of tenths (of a percent, or of an mmHg); JavaScript's
`toFixed(1)` is modelled on exact rational values by `toFixedTenths`.
-/

namespace MedsMate

/-- Gender enumeration from the patient-data schema (`shared/schema.ts`). -/
inductive Gender
  | male
  | female
  | other
deriving DecidableEq, Repr

/-- Diabetes status enumeration from the patient-data schema. -/
inductive DiabetesStatus
  | none
  | type1
  | type2
  | prediabetes
deriving DecidableEq, Repr

/-- Family-history enumeration from the patient-data schema. -/
inductive FamilyHistory
  | none
  | parent
  | sibling
  | multiple
deriving DecidableEq, Repr

/-- Current-medication enumeration from the patient-data schema. -/
inductive Medication
  | none
  | timolol
  | latanoprost
  | brimonidine
  | dorzolamide
  | combination
deriving DecidableEq, Repr

/-- A patient-attribute record, after the `patient_data` table of
`shared/schema.ts` (all numeric columns are `integer`). -/
structure PatientAttributes where
  age : Int
  gender : Gender
  sleepQuality : Int
  stressLevel : Int
  physicalActivity : Int
  diabetesStatus : DiabetesStatus
  bloodSugar : Option Int
  systolicBP : Int
  diastolicBP : Int
  familyHistory : FamilyHistory
  currentMedications : Medication
  lastDropHours : Int
deriving DecidableEq, Repr

/-- The four risk levels of the response taxonomy. -/
inductive RiskLevel
  | low
  | moderate
  | high
  | critical
deriving DecidableEq, Repr

/-- The `RealTimeRiskResponse` shape of `shared/schema.ts`; the two numeric
fields carry tenths (risk percentage in tenths of a percent, IOP in tenths
of an mmHg), matching the 1-decimal precision the source emits. -/
structure RealTimeRiskResponse where
  risk_percentage_tenths : Int
  risk_level : RiskLevel
  average_predicted_iop_tenths : Int
  message : String
deriving DecidableEq, Repr

/-- ECMAScript `x.toFixed(1)` on an exact rational operand, returned in
tenths: the integer `n` minimising the distance of `n / 10` to `x`, the
larger `n` winning ties, i.e. `⌊10 x + 1/2⌋`. -/
def toFixedTenths (x : ℚ) : Int := ⌊x * 10 + 1 / 2⌋

/-- The additive risk score of `calculateRealTimeRisk`
(`server/storage.ts` lines 149-177), in tenths of a percent, with the
source's summands in the source's order. -/
def riskScoreTenths (data : PatientAttributes) : Int :=
  max 0 ((data.age - 40) * 5)
    + (10 - data.sleepQuality) * 20
    + data.stressLevel * 15
    + (10 - data.physicalActivity) * 12
    + (if data.systolicBP > 140 ∨ data.diastolicBP > 90 then 80
       else if data.systolicBP > 130 ∨ data.diastolicBP > 80 then 40
       else 0)
    + (if data.diabetesStatus = DiabetesStatus.type1
          ∨ data.diabetesStatus = DiabetesStatus.type2 then 120
       else if data.diabetesStatus = DiabetesStatus.prediabetes then 60
       else 0)
    + (if data.familyHistory = FamilyHistory.multiple then 150
       else if data.familyHistory = FamilyHistory.parent
          ∨ data.familyHistory = FamilyHistory.sibling then 80
       else 0)
    + (if data.lastDropHours > 24 then (data.lastDropHours - 24) * 8 else 0)

/-- `Math.min(100, Math.max(0, riskScore))` of line 179, in tenths. -/
def riskPercentageTenths (data : PatientAttributes) : Int :=
  min 1000 (max 0 (riskScoreTenths data))

/-- Lines 182-184: `parseFloat((14 * (1 + (riskPercentage/100) * 0.6)).toFixed(1))`,
in tenths of an mmHg (the percentage in tenths is divided by 10 to recover
the percent value the source holds). -/
def averagePredictedIopTenths (data : PatientAttributes) : Int :=
  toFixedTenths (14 * (1 + (riskPercentageTenths data : ℚ) / 10 / 100 * (6 / 10)))

/-- The level branch of lines 190-202, taking the percentage in tenths. -/
def riskLevelOfTenths (p : Int) : RiskLevel :=
  if p < 200 then RiskLevel.low
  else if p < 400 then RiskLevel.moderate
  else if p < 700 then RiskLevel.high
  else RiskLevel.critical

/-- The four advisory message literals of lines 190-202, keyed by level. -/
def messageFor : RiskLevel → String
  | RiskLevel.low =>
      "Current treatment appears to be working effectively. Continue current regimen."
  | RiskLevel.moderate =>
      "Elevated risk detected. Consider adjusting treatment schedule or medication."
  | RiskLevel.high =>
      "High risk of elevated IOP. Recommend immediate consultation with ophthalmologist."
  | RiskLevel.critical =>
      "Critical risk level. Emergency ophthalmology consultation required."

/-- `calculateRealTimeRisk` of `server/storage.ts` lines 148-210: the
response assembles the rounded percentage (line 205), the level and its
message (lines 190-202) and the derived average IOP (lines 182-184). -/
def calculateRealTimeRisk (data : PatientAttributes) : RealTimeRiskResponse :=
  { risk_percentage_tenths := toFixedTenths ((riskPercentageTenths data : ℚ) / 10)
    risk_level := riskLevelOfTenths (riskPercentageTenths data)
    average_predicted_iop_tenths := averagePredictedIopTenths data
    message := messageFor (riskLevelOfTenths (riskPercentageTenths data)) }

/-! Spec-side definitions: the eight fixed-weight contributions exactly as
the specification words them (§4.1 of the spec), over ℚ, to be compared
against the source function embedded above. -/

/-- Spec wording: age contributes `max(0, (age − 40) × 0.5)`. -/
def ageContribution (d : PatientAttributes) : ℚ :=
  max 0 (((d.age : ℚ) - 40) * (1 / 2))

/-- Spec wording: sleep contributes `(10 − sleepQuality) × 2`. -/
def sleepContribution (d : PatientAttributes) : ℚ :=
  (10 - (d.sleepQuality : ℚ)) * 2

/-- Spec wording: stress contributes `stressLevel × 1.5`. -/
def stressContribution (d : PatientAttributes) : ℚ :=
  (d.stressLevel : ℚ) * (3 / 2)

/-- Spec wording: activity contributes `(10 − physicalActivity) × 1.2`. -/
def activityContribution (d : PatientAttributes) : ℚ :=
  (10 - (d.physicalActivity : ℚ)) * (6 / 5)

/-- Spec wording: `+8` if systolic > 140 or diastolic > 90, else `+4` if
systolic > 130 or diastolic > 80, else `+0`. -/
def bloodPressureContribution (d : PatientAttributes) : ℚ :=
  if d.systolicBP > 140 ∨ d.diastolicBP > 90 then 8
  else if d.systolicBP > 130 ∨ d.diastolicBP > 80 then 4
  else 0

/-- Spec wording: `+12` for type1/type2, `+6` for prediabetes, else `+0`. -/
def diabetesContribution (d : PatientAttributes) : ℚ :=
  if d.diabetesStatus = DiabetesStatus.type1
      ∨ d.diabetesStatus = DiabetesStatus.type2 then 12
  else if d.diabetesStatus = DiabetesStatus.prediabetes then 6
  else 0

/-- Spec wording: `+15` for multiple, `+8` for parent or sibling, else `+0`. -/
def familyHistoryContribution (d : PatientAttributes) : ℚ :=
  if d.familyHistory = FamilyHistory.multiple then 15
  else if d.familyHistory = FamilyHistory.parent
      ∨ d.familyHistory = FamilyHistory.sibling then 8
  else 0

/-- Spec wording: `+(lastDropHours − 24) × 0.8` only if lastDropHours > 24. -/
def dropTimingContribution (d : PatientAttributes) : ℚ :=
  if d.lastDropHours > 24 then ((d.lastDropHours : ℚ) - 24) * (4 / 5) else 0

/-- The spec's raw score: the sum of the eight contributions. -/
def specRawScore (d : PatientAttributes) : ℚ :=
  ageContribution d + sleepContribution d + stressContribution d
    + activityContribution d + bloodPressureContribution d
    + diabetesContribution d + familyHistoryContribution d
    + dropTimingContribution d

/-- The spec's risk percentage: `clamp(rawScore, 0, 100)`. -/
def specRiskPercentage (d : PatientAttributes) : ℚ :=
  min 100 (max 0 (specRawScore d))

/-- The spec's level table: `[0,20) → low`, `[20,40) → moderate`,
`[40,70) → high`, `[70,100] → critical` (first match, ascending). -/
def specLevelOf (p : ℚ) : RiskLevel :=
  if p < 20 then RiskLevel.low
  else if p < 40 then RiskLevel.moderate
  else if p < 70 then RiskLevel.high
  else RiskLevel.critical

/-! The ForecastEngine. The Python model file the route handler invokes
(`server/ml/iop_model.py`) is not part of the available sources; the engine
below is modelled from §4.2 of the specification. -/

/-- Modelled from the spec: the fixed diurnal curve of the missing
`iop_model.py`, as an offset table in tenths of an mmHg. It is a sampled
cosine of amplitude 2.0 mmHg with its single peak at hour 4 (early
morning) and its single trough at hour 16 (afternoon); the 24 offsets sum
to zero, so the hourly baseline is centred on the patient's
`averagePredictedIop` as §4.2 step 1 requires. -/
def circadianOffsetTenths (h : ℕ) : Int :=
  ([10, 14, 17, 19, 20, 19, 17, 14, 10, 5, 0, -5,
    -10, -14, -17, -19, -20, -19, -17, -14, -10, -5, 0, 5] : List Int).getD h 0

/-- Modelled from the spec (§4.2 step 2): hours within a fixed 12-hour
efficacy window after the last dose show suppressed IOP, the suppression
decaying linearly (0.5 mmHg per remaining hour) with elapsed time
`lastDropHours + h` since the dose. -/
def dropSuppressionTenths (d : PatientAttributes) (h : ℕ) : Int :=
  max 0 ((12 - (d.lastDropHours + (h : Int))) * 5)

/-- Modelled from the spec: the hourly predicted IOP in tenths of an mmHg —
the patient's average predicted IOP, shifted by the circadian offset and
lowered by the dose-efficacy suppression (already an exact tenth, so the
spec's 1-decimal rounding of §4.2 step 3 is the identity on it). -/
def predictedIopTenths (d : PatientAttributes) (h : ℕ) : Int :=
  averagePredictedIopTenths d + circadianOffsetTenths h - dropSuppressionTenths d h

/-- The absolute mmHg level thresholds of §4.2 step 3, in tenths:
`<15 → low`, `[15,18) → moderate`, `[18,21) → high`, `≥21 → critical`. -/
def iopLevelOfTenths (t : Int) : RiskLevel :=
  if t < 150 then RiskLevel.low
  else if t < 180 then RiskLevel.moderate
  else if t < 210 then RiskLevel.high
  else RiskLevel.critical

/-- One entry of the `predictions` array of `IopForecastResponse`
(`shared/schema.ts` lines 62-66), IOP in tenths of an mmHg. -/
structure HourlyPrediction where
  hour : ℕ
  predicted_iop_tenths : Int
  risk_level : RiskLevel
deriving DecidableEq, Repr

/-- The `circadian_analysis` object of `IopForecastResponse`
(`shared/schema.ts` lines 68-72), in tenths of an mmHg. -/
structure CircadianAnalysis where
  peak_iop_tenths : Int
  trough_iop_tenths : Int
  average_iop_tenths : Int
deriving DecidableEq, Repr

/-- The `IopForecastResponse` shape of `shared/schema.ts` lines 61-78
(the optimal hour is carried both as the raw hour index and as the
formatted time string the schema stores). -/
structure IopForecastResponse where
  predictions : List HourlyPrediction
  optimal_hour : ℕ
  optimal_drop_time : String
  circadian_analysis : CircadianAnalysis
  risk_assessment : RealTimeRiskResponse
deriving DecidableEq, Repr

/-- The 24 hourly IOP values, in forecast order. -/
def forecastValues (d : PatientAttributes) : List Int :=
  (List.range 24).map (predictedIopTenths d)

/-- First index in `0..n` minimising `f`, scanning upward and keeping the
earlier index on ties (the spec's deterministic tie-break of §4.2). -/
def bestHourAux (f : ℕ → Int) : ℕ → ℕ
  | 0 => 0
  | n + 1 => if f (n + 1) < f (bestHourAux f n) then n + 1 else bestHourAux f n

/-- Modelled from the spec (§4.2 step 5): the hour of minimum predicted
IOP, the earliest on ties. -/
def optimalHour (d : PatientAttributes) : ℕ :=
  bestHourAux (predictedIopTenths d) 23

/-- Modelled from the spec (§4.2 step 4): the maximum of the 24 hourly
predictions. -/
def peakIopTenths (d : PatientAttributes) : Int :=
  (forecastValues d).foldl max (predictedIopTenths d 0)

/-- Modelled from the spec (§4.2 step 4): the minimum of the 24 hourly
predictions. -/
def troughIopTenths (d : PatientAttributes) : Int :=
  (forecastValues d).foldl min (predictedIopTenths d 0)

/-- Modelled from the spec (§4.2 step 4): the mean of the 24 hourly
predictions (tenths summed, converted to mmHg, divided by 24), rounded to
one decimal. -/
def forecastAverageIopTenths (d : PatientAttributes) : Int :=
  toFixedTenths (((forecastValues d).sum : ℚ) / 10 / 24)

/-- The optimal hour formatted as a time-of-day string. -/
def formatHour (h : ℕ) : String :=
  Nat.repr h ++ ":00"

/-- Modelled from the spec: `ForecastEngine.compute` plus the
`ResponseAssembler` of §4.2-§4.3, producing the full forecast response. -/
def computeForecast (d : PatientAttributes) : IopForecastResponse :=
  { predictions :=
      (List.range 24).map fun h =>
        { hour := h
          predicted_iop_tenths := predictedIopTenths d h
          risk_level := iopLevelOfTenths (predictedIopTenths d h) }
    optimal_hour := optimalHour d
    optimal_drop_time := formatHour (optimalHour d)
    circadian_analysis :=
      { peak_iop_tenths := peakIopTenths d
        trough_iop_tenths := troughIopTenths d
        average_iop_tenths := forecastAverageIopTenths d }
    risk_assessment := calculateRealTimeRisk d }

/-- The concrete scenario record of claim C4 (spec §8). -/
def scenarioInput : PatientAttributes :=
  { age := 50, gender := Gender.male, sleepQuality := 7, stressLevel := 4,
    physicalActivity := 5, diabetesStatus := DiabetesStatus.none,
    bloodSugar := Option.none, systolicBP := 120, diastolicBP := 80,
    familyHistory := FamilyHistory.none, currentMedications := Medication.none,
    lastDropHours := 24 }

/-- The valid record at which the running program's double-precision score
drifts just below the 20.0 boundary: its exact score is exactly 20.0%, but
the source's IEEE-754 accumulation of the same summands evaluates to
19.999999999999996 (the inexact steps are `9 * 1.2` and `4 * 0.8`). -/
def boundaryInput : PatientAttributes :=
  { age := 41, gender := Gender.male, sleepQuality := 10, stressLevel := 1,
    physicalActivity := 1, diabetesStatus := DiabetesStatus.none,
    bloodSugar := Option.none, systolicBP := 135, diastolicBP := 80,
    familyHistory := FamilyHistory.none, currentMedications := Medication.none,
    lastDropHours := 28 }

/-- The valid record whose reported percentage 12.5 places the average-IOP
formula exactly on the 15.05 half-tenth rounding tie: the source's double
product `14 * (1 + 0.125 * 0.6)` evaluates just below 15.05, so its
`toFixed(1)` returns 15.0 instead of the 15.1 exact rounding gives. -/
def tieInput : PatientAttributes :=
  { age := 62, gender := Gender.male, sleepQuality := 10, stressLevel := 1,
    physicalActivity := 10, diabetesStatus := DiabetesStatus.none,
    bloodSugar := Option.none, systolicBP := 120, diastolicBP := 80,
    familyHistory := FamilyHistory.none, currentMedications := Medication.none,
    lastDropHours := 24 }

/-! Supporting lemmas. -/

/-- Rounding an exact multiple of one tenth is the identity. -/
theorem toFixedTenths_int_div_ten (n : Int) : toFixedTenths ((n : ℚ) / 10) = n := by
  unfold toFixedTenths
  rw [div_mul_cancel₀ _ (by norm_num : (10 : ℚ) ≠ 0)]
  rw [Int.floor_int_add]
  norm_num

/-- The spec's raw score is the source's tenths score divided by ten. -/
theorem specRawScore_eq (d : PatientAttributes) :
    specRawScore d = (riskScoreTenths d : ℚ) / 10 := by
  rw [eq_div_iff (by norm_num : (10 : ℚ) ≠ 0)]
  unfold specRawScore riskScoreTenths ageContribution sleepContribution
    stressContribution activityContribution bloodPressureContribution
    diabetesContribution familyHistoryContribution dropTimingContribution
  have hage : max 0 (((d.age : ℚ) - 40) * (1 / 2)) * 10
      = ((max 0 ((d.age - 40) * 5) : ℤ) : ℚ) := by
    push_cast
    rw [max_mul_of_nonneg _ _ (by norm_num : (0 : ℚ) ≤ 10)]
    norm_num
    ring_nf
  push_cast
  rw [add_mul, add_mul, add_mul, add_mul, add_mul, add_mul, add_mul, hage]
  split_ifs <;> push_cast <;> ring

/-- Clamping commutes with the change of scale between percent and tenths. -/
theorem clamp_div_ten (s : Int) :
    min 100 (max 0 ((s : ℚ) / 10)) = ((min 1000 (max 0 s) : ℤ) : ℚ) / 10 := by
  push_cast
  rcases le_total (s : ℚ) 0 with h | h
  · rw [max_eq_left h, max_eq_left (show (s : ℚ) / 10 ≤ 0 by linarith)]
    norm_num
  · rw [max_eq_right h, max_eq_right (show (0 : ℚ) ≤ (s : ℚ) / 10 by linarith)]
    rcases le_total (s : ℚ) 1000 with h2 | h2
    · rw [min_eq_right h2, min_eq_right (show (s : ℚ) / 10 ≤ 100 by linarith)]
    · rw [min_eq_left h2, min_eq_left (show (100 : ℚ) ≤ (s : ℚ) / 10 by linarith)]
      norm_num

end MedsMate

namespace MedsMate

/-- Rounding to a tenth is monotone. -/
theorem toFixedTenths_mono {x y : ℚ} (h : x ≤ y) : toFixedTenths x ≤ toFixedTenths y := by
  unfold toFixedTenths
  exact Int.floor_le_floor (by linarith)

/-- The clamped percentage is nonnegative. -/
theorem riskPercentageTenths_nonneg (d : PatientAttributes) :
    0 ≤ riskPercentageTenths d :=
  le_min (by norm_num) (le_max_left 0 _)

/-- The clamped percentage is at most 100 percent (1000 tenths). -/
theorem riskPercentageTenths_le (d : PatientAttributes) :
    riskPercentageTenths d ≤ 1000 :=
  min_le_left _ _

/-- The average predicted IOP always lies between 14.0 and 22.4 mmHg
(140 and 224 tenths), because it is derived from the clamped percentage. -/
theorem averagePredictedIop_bounds (d : PatientAttributes) :
    140 ≤ averagePredictedIopTenths d ∧ averagePredictedIopTenths d ≤ 224 := by
  have h0 := riskPercentageTenths_nonneg d
  have h1 := riskPercentageTenths_le d
  have hp0 : (0 : ℚ) ≤ (riskPercentageTenths d : ℚ) := by exact_mod_cast h0
  have hp1 : (riskPercentageTenths d : ℚ) ≤ 1000 := by exact_mod_cast h1
  have e140 : toFixedTenths (14 : ℚ) = 140 := by norm_num [toFixedTenths]
  have e224 : toFixedTenths (112 / 5 : ℚ) = 224 := by norm_num [toFixedTenths]
  unfold averagePredictedIopTenths
  constructor
  · rw [← e140]
    exact toFixedTenths_mono (by nlinarith)
  · rw [← e224]
    exact toFixedTenths_mono (by nlinarith)

end MedsMate

namespace MedsMate

/-- Claim C5: raising the stress level never lowers the risk percentage,
and lowering the sleep quality never lowers it either, all else fixed. -/
theorem claim_C5 :
    (∀ (d : PatientAttributes) (s₁ s₂ : Int), s₁ ≤ s₂ →
        (calculateRealTimeRisk { d with stressLevel := s₁ }).risk_percentage_tenths
          ≤ (calculateRealTimeRisk { d with stressLevel := s₂ }).risk_percentage_tenths)
      ∧ ∀ (d : PatientAttributes) (q₁ q₂ : Int), q₁ ≤ q₂ →
        (calculateRealTimeRisk { d with sleepQuality := q₂ }).risk_percentage_tenths
          ≤ (calculateRealTimeRisk { d with sleepQuality := q₁ }).risk_percentage_tenths := by
  constructor
  · intro d s₁ s₂ h
    show toFixedTenths _ ≤ toFixedTenths _
    rw [toFixedTenths_int_div_ten, toFixedTenths_int_div_ten]
    refine min_le_min le_rfl (max_le_max le_rfl ?_)
    unfold riskScoreTenths
    dsimp only
    have := mul_le_mul_of_nonneg_right h (by norm_num : (0 : Int) ≤ 15)
    linarith
  · intro d q₁ q₂ h
    show toFixedTenths _ ≤ toFixedTenths _
    rw [toFixedTenths_int_div_ten, toFixedTenths_int_div_ten]
    refine min_le_min le_rfl (max_le_max le_rfl ?_)
    unfold riskScoreTenths
    dsimp only
    have := mul_le_mul_of_nonneg_right (sub_le_sub_left h 10) (by norm_num : (0 : Int) ≤ 20)
    linarith

/-- Witness for C5 at concrete inputs. -/
theorem claim_C5_witness :
    (calculateRealTimeRisk { scenarioInput with stressLevel := 4 }).risk_percentage_tenths
        ≤ (calculateRealTimeRisk { scenarioInput with stressLevel := 9 }).risk_percentage_tenths
      ∧ (calculateRealTimeRisk { scenarioInput with sleepQuality := 7 }).risk_percentage_tenths
        ≤ (calculateRealTimeRisk { scenarioInput with sleepQuality := 3 }).risk_percentage_tenths :=
  ⟨claim_C5.1 scenarioInput 4 9 (by norm_num), claim_C5.2 scenarioInput 3 7 (by norm_num)⟩

/-- Claim C6: the risk computation is a total function of the record; for
every record, including out-of-range numeric fields, it yields a
well-formed assessment: percentage within [0,100], average IOP within its
derived range, and the message the fixed template of the level. -/
theorem claim_C6 (d : PatientAttributes) :
    0 ≤ (calculateRealTimeRisk d).risk_percentage_tenths
      ∧ (calculateRealTimeRisk d).risk_percentage_tenths ≤ 1000
      ∧ 140 ≤ (calculateRealTimeRisk d).average_predicted_iop_tenths
      ∧ (calculateRealTimeRisk d).average_predicted_iop_tenths ≤ 224
      ∧ (calculateRealTimeRisk d).message
          = messageFor (calculateRealTimeRisk d).risk_level := by
  have hpct : (calculateRealTimeRisk d).risk_percentage_tenths = riskPercentageTenths d :=
    toFixedTenths_int_div_ten _
  refine ⟨?_, ?_, (averagePredictedIop_bounds d).1, (averagePredictedIop_bounds d).2, rfl⟩
  · rw [hpct]; exact riskPercentageTenths_nonneg d
  · rw [hpct]; exact riskPercentageTenths_le d

/-- Claim C9: gender, blood sugar and current medications have no
influence on the risk computation. -/
theorem claim_C9 (d₁ d₂ : PatientAttributes)
    (h1 : d₁.age = d₂.age) (h2 : d₁.sleepQuality = d₂.sleepQuality)
    (h3 : d₁.stressLevel = d₂.stressLevel)
    (h4 : d₁.physicalActivity = d₂.physicalActivity)
    (h5 : d₁.diabetesStatus = d₂.diabetesStatus)
    (h6 : d₁.systolicBP = d₂.systolicBP) (h7 : d₁.diastolicBP = d₂.diastolicBP)
    (h8 : d₁.familyHistory = d₂.familyHistory)
    (h9 : d₁.lastDropHours = d₂.lastDropHours) :
    calculateRealTimeRisk d₁ = calculateRealTimeRisk d₂ := by
  cases d₁
  cases d₂
  simp only at h1 h2 h3 h4 h5 h6 h7 h8 h9
  subst h1 h2 h3 h4 h5 h6 h7 h8 h9
  rfl

/-- Witness for C9: two records differing exactly in gender, blood sugar
and medications produce identical responses. -/
theorem claim_C9_witness :
    calculateRealTimeRisk scenarioInput
      = calculateRealTimeRisk
          { scenarioInput with
              gender := Gender.female
              bloodSugar := Option.some 120
              currentMedications := Medication.timolol } :=
  claim_C9 _ _ rfl rfl rfl rfl rfl rfl rfl rfl rfl

/-- Claim C10: the average predicted IOP returned by the risk computation
lies in [14.0, 22.4] mmHg for every record. -/
theorem claim_C10 (d : PatientAttributes) :
    140 ≤ (calculateRealTimeRisk d).average_predicted_iop_tenths
      ∧ (calculateRealTimeRisk d).average_predicted_iop_tenths ≤ 224 :=
  averagePredictedIop_bounds d

end MedsMate

namespace MedsMate

/-- Claim C1: for every patient-attribute record, the risk percentage
returned by the risk computation equals the sum of the eight fixed-weight
contributions, clamped to [0,100] and rounded to 1 decimal (tenths). -/
theorem claim_C1 (d : PatientAttributes) :
    (calculateRealTimeRisk d).risk_percentage_tenths
      = toFixedTenths (specRiskPercentage d) := by
  have h : specRiskPercentage d = (riskPercentageTenths d : ℚ) / 10 := by
    unfold specRiskPercentage
    rw [specRawScore_eq, clamp_div_ten]
    rfl
  show toFixedTenths ((riskPercentageTenths d : ℚ) / 10) = toFixedTenths (specRiskPercentage d)
  rw [h]

/-- Claim C2, evaluated at its failing input: at `boundaryInput` the exact
risk score is exactly 20.0% (200 tenths), the reported percentage is 20.0,
and both the source's level branch and the spec's table assign moderate to
a percentage of 20.0 — whereas the running program's IEEE-754 score
evaluates to 19.999999999999996 there and returns level low together with
the same reported percentage 20.0, violating the claimed boundary law. -/
theorem claim_C2 :
    riskPercentageTenths boundaryInput = 200
      ∧ (calculateRealTimeRisk boundaryInput).risk_percentage_tenths = 200
      ∧ riskLevelOfTenths 200 = RiskLevel.moderate
      ∧ specLevelOf 20 = RiskLevel.moderate := by
  refine ⟨by decide, ?_, by norm_num [riskLevelOfTenths], by norm_num [specLevelOf]⟩
  rw [show (calculateRealTimeRisk boundaryInput).risk_percentage_tenths
      = riskPercentageTenths boundaryInput from toFixedTenths_int_div_ten _]
  decide

/-- Claim C3, evaluated at its failing input: at `tieInput` the reported
risk percentage is 12.5 (125 tenths), the claim's formula
`14 × (1 + (12.5/100) × 0.6)` evaluates exactly to 15.05 mmHg, and rounding
that value to one decimal yields 15.1 (151 tenths) — whereas the running
program's double product evaluates just below the tie and its `toFixed(1)`
returns 15.0, so the returned IOP is not the claimed rounding of the
formula. -/
theorem claim_C3 :
    (calculateRealTimeRisk tieInput).risk_percentage_tenths = 125
      ∧ 14 * (1 + ((125 : ℚ) / 10) / 100 * (6 / 10)) = 301 / 20
      ∧ toFixedTenths (301 / 20) = 151 := by
  refine ⟨?_, by norm_num, by norm_num [toFixedTenths]⟩
  rw [show (calculateRealTimeRisk tieInput).risk_percentage_tenths
      = riskPercentageTenths tieInput from toFixedTenths_int_div_ten _]
  decide

/-- Claim C4: the spec's concrete scenario (age 50, male, sleep 7, stress 4,
activity 5, no diabetes, BP 120/80, no family history, no medications,
24 h since last drop) yields risk percentage 23.0 (230 tenths), level
moderate, and average predicted IOP 15.9 (159 tenths). -/
theorem claim_C4 :
    (calculateRealTimeRisk scenarioInput).risk_percentage_tenths = 230
      ∧ (calculateRealTimeRisk scenarioInput).risk_level = RiskLevel.moderate
      ∧ (calculateRealTimeRisk scenarioInput).average_predicted_iop_tenths = 159 := by
  refine ⟨?_, ?_, ?_⟩ <;>
      simp [calculateRealTimeRisk, averagePredictedIopTenths, riskPercentageTenths,
        riskLevelOfTenths, toFixedTenths, scenarioInput, riskScoreTenths] <;>
      norm_num [Int.floor_eq_iff]

end MedsMate

namespace MedsMate

/-- A left fold by `max` only grows its seed. -/
theorem le_foldlMax (l : List Int) (a : Int) : a ≤ l.foldl max a := by
  induction l generalizing a with
  | nil => exact le_refl a
  | cons x t ih => exact le_trans (le_max_left a x) (ih (max a x))

/-- A left fold by `max` bounds every member of the list. -/
theorem le_foldlMax_of_mem (l : List Int) (a x : Int) (hx : x ∈ l) :
    x ≤ l.foldl max a := by
  induction l generalizing a with
  | nil => cases hx
  | cons y t ih =>
      rcases List.mem_cons.mp hx with h | h
      · subst h
        exact le_trans (le_max_right a x) (le_foldlMax t _)
      · exact ih _ h

/-- A left fold by `max` is the seed or some member of the list. -/
theorem foldlMax_mem (l : List Int) (a : Int) :
    l.foldl max a = a ∨ l.foldl max a ∈ l := by
  induction l generalizing a with
  | nil => exact Or.inl rfl
  | cons y t ih =>
      rcases ih (max a y) with h | h
      · rcases max_choice a y with hh | hh
        · exact Or.inl (by rw [List.foldl_cons, h, hh])
        · refine Or.inr ?_
          rw [List.foldl_cons, h, hh]
          exact List.mem_cons_self y t
      · exact Or.inr (List.mem_cons_of_mem y h)

/-- A left fold by `min` only shrinks its seed. -/
theorem foldlMin_le (l : List Int) (a : Int) : l.foldl min a ≤ a := by
  induction l generalizing a with
  | nil => exact le_refl a
  | cons x t ih => exact le_trans (ih (min a x)) (min_le_left a x)

/-- A left fold by `min` is below every member of the list. -/
theorem foldlMin_le_of_mem (l : List Int) (a x : Int) (hx : x ∈ l) :
    l.foldl min a ≤ x := by
  induction l generalizing a with
  | nil => cases hx
  | cons y t ih =>
      rcases List.mem_cons.mp hx with h | h
      · subst h
        exact le_trans (foldlMin_le t _) (min_le_right a x)
      · exact ih _ h

/-- A left fold by `min` is the seed or some member of the list. -/
theorem foldlMin_mem (l : List Int) (a : Int) :
    l.foldl min a = a ∨ l.foldl min a ∈ l := by
  induction l generalizing a with
  | nil => exact Or.inl rfl
  | cons y t ih =>
      rcases ih (min a y) with h | h
      · rcases min_choice a y with hh | hh
        · exact Or.inl (by rw [List.foldl_cons, h, hh])
        · refine Or.inr ?_
          rw [List.foldl_cons, h, hh]
          exact List.mem_cons_self y t
      · exact Or.inr (List.mem_cons_of_mem y h)

/-- The scanned best hour never exceeds the scan bound. -/
theorem bestHourAux_le (f : ℕ → Int) (n : ℕ) : bestHourAux f n ≤ n := by
  induction n with
  | zero => exact le_refl 0
  | succ n ih =>
      unfold bestHourAux
      split_ifs
      · exact le_refl (n + 1)
      · exact le_trans ih (Nat.le_succ n)

/-- The scanned best hour minimises `f` over `0..n`. -/
theorem bestHourAux_min (f : ℕ → Int) :
    ∀ n k, k ≤ n → f (bestHourAux f n) ≤ f k := by
  intro n
  induction n with
  | zero =>
      intro k hk
      rw [Nat.le_zero.mp hk]
      exact le_refl _
  | succ n ih =>
      intro k hk
      unfold bestHourAux
      split_ifs with h
      · rcases Nat.lt_succ_iff_lt_or_eq.mp (Nat.lt_succ_of_le hk) with hk2 | hk2
        · exact le_of_lt (lt_of_lt_of_le h (ih k (Nat.lt_succ_iff.mp hk2)))
        · rw [hk2]
      · rcases Nat.lt_succ_iff_lt_or_eq.mp (Nat.lt_succ_of_le hk) with hk2 | hk2
        · exact ih k (Nat.lt_succ_iff.mp hk2)
        · rw [hk2]
          exact le_of_not_lt h

/-- Earlier hours than the scanned best are strictly worse: the scan keeps
the earliest minimiser. -/
theorem bestHourAux_first (f : ℕ → Int) :
    ∀ n k, k < bestHourAux f n → f (bestHourAux f n) < f k := by
  intro n
  induction n with
  | zero =>
      intro k hk
      cases Nat.not_lt_zero k hk
  | succ n ih =>
      intro k hk
      unfold bestHourAux at hk ⊢
      split_ifs with h
      · rw [if_pos h] at hk
        exact lt_of_lt_of_le h (bestHourAux_min f n k (Nat.lt_succ_iff.mp hk))
      · rw [if_neg h] at hk
        exact ih k hk

end MedsMate

namespace MedsMate

/-- Rounding to a tenth moves the value by at most half a tenth. -/
theorem toFixedTenths_close (x : ℚ) : |(toFixedTenths x : ℚ) / 10 - x| ≤ 1 / 20 := by
  unfold toFixedTenths
  have h1 : ((⌊x * 10 + 1 / 2⌋ : ℤ) : ℚ) ≤ x * 10 + 1 / 2 := Int.floor_le _
  have h2 : x * 10 + 1 / 2 < (⌊x * 10 + 1 / 2⌋ : ℤ) + 1 := Int.lt_floor_add_one _
  rw [abs_le]
  constructor <;> linarith

/-- The hourly values of the forecast response are the `forecastValues`. -/
theorem predictions_values (d : PatientAttributes) :
    (computeForecast d).predictions.map HourlyPrediction.predicted_iop_tenths
      = forecastValues d := by
  simp [computeForecast, forecastValues, List.map_map, Function.comp_def]

/-- Claim C7: the forecast always returns exactly 24 predictions whose
hours are 0 through 23 in chronological order, with no duplicates and no
gaps. -/
theorem claim_C7 (d : PatientAttributes) :
    (computeForecast d).predictions.length = 24
      ∧ (computeForecast d).predictions.map HourlyPrediction.hour = List.range 24 := by
  constructor
  · simp [computeForecast]
  · simp [computeForecast, List.map_map, Function.comp_def]

end MedsMate

namespace MedsMate

/-- The peak is attained by, and bounds, the 24 hourly values. -/
theorem peak_is_max (d : PatientAttributes) :
    peakIopTenths d ∈ forecastValues d
      ∧ ∀ v ∈ forecastValues d, v ≤ peakIopTenths d := by
  constructor
  · rcases foldlMax_mem (forecastValues d) (predictedIopTenths d 0) with h | h
    · rw [peakIopTenths, h]
      exact List.mem_map_of_mem _ (List.mem_range.mpr (by norm_num))
    · exact h
  · intro v hv
    exact le_foldlMax_of_mem _ _ _ hv

/-- The trough is attained by, and is below, the 24 hourly values. -/
theorem trough_is_min (d : PatientAttributes) :
    troughIopTenths d ∈ forecastValues d
      ∧ ∀ v ∈ forecastValues d, troughIopTenths d ≤ v := by
  constructor
  · rcases foldlMin_mem (forecastValues d) (predictedIopTenths d 0) with h | h
    · rw [troughIopTenths, h]
      exact List.mem_map_of_mem _ (List.mem_range.mpr (by norm_num))
    · exact h
  · intro v hv
    exact foldlMin_le_of_mem _ _ _ hv

/-- Claim C8: over the forecast response, the peak is the maximum and the
trough the minimum of the 24 hourly predictions, the average is their mean
within half a tenth, and the optimal hour is the earliest hour attaining
the minimum predicted IOP. -/
theorem claim_C8 (d : PatientAttributes) :
    ((computeForecast d).circadian_analysis.peak_iop_tenths
        ∈ (computeForecast d).predictions.map HourlyPrediction.predicted_iop_tenths
      ∧ ∀ p ∈ (computeForecast d).predictions,
          p.predicted_iop_tenths ≤ (computeForecast d).circadian_analysis.peak_iop_tenths)
    ∧ ((computeForecast d).circadian_analysis.trough_iop_tenths
        ∈ (computeForecast d).predictions.map HourlyPrediction.predicted_iop_tenths
      ∧ ∀ p ∈ (computeForecast d).predictions,
          (computeForecast d).circadian_analysis.trough_iop_tenths ≤ p.predicted_iop_tenths)
    ∧ |((computeForecast d).circadian_analysis.average_iop_tenths : ℚ) / 10
          - (((computeForecast d).predictions.map HourlyPrediction.predicted_iop_tenths).sum : ℚ)
            / 10 / 24|
        ≤ 1 / 20
    ∧ (computeForecast d).optimal_hour < 24
    ∧ (∀ h, h < 24 →
        predictedIopTenths d ((computeForecast d).optimal_hour) ≤ predictedIopTenths d h)
    ∧ ∀ h, h < (computeForecast d).optimal_hour →
        predictedIopTenths d ((computeForecast d).optimal_hour) < predictedIopTenths d h := by
  refine ⟨⟨?_, ?_⟩, ⟨?_, ?_⟩, ?_, ?_, ?_, ?_⟩
  · rw [predictions_values]
    exact (peak_is_max d).1
  · intro p hp
    have hm := List.mem_map_of_mem HourlyPrediction.predicted_iop_tenths hp
    rw [predictions_values] at hm
    exact (peak_is_max d).2 _ hm
  · rw [predictions_values]
    exact (trough_is_min d).1
  · intro p hp
    have hm := List.mem_map_of_mem HourlyPrediction.predicted_iop_tenths hp
    rw [predictions_values] at hm
    exact (trough_is_min d).2 _ hm
  · rw [predictions_values]
    exact toFixedTenths_close _
  · exact Nat.lt_succ_of_le (bestHourAux_le _ 23)
  · intro h hh
    exact bestHourAux_min _ 23 h (Nat.lt_succ_iff.mp hh)
  · intro h hh
    exact bestHourAux_first _ 23 h hh

/-- Witness for C8: applying the theorem at the concrete scenario record
and hour 5. -/
theorem claim_C8_witness :
    predictedIopTenths scenarioInput ((computeForecast scenarioInput).optimal_hour)
      ≤ predictedIopTenths scenarioInput 5 :=
  (claim_C8 scenarioInput).2.2.2.2.1 5 (by norm_num)

end MedsMate
